import Mathlib

/-!
Shallow embedding of the job lifecycle and model-residency core of
`src/server/image-edit-server.py` (Qwen Image Edit API server), together
with theorems settling the frozen claims about it.

Modelling conventions:
* Python floats are modelled as rationals (`ℚ`); `round(x, 1)` is modelled
  as exact decimal rounding half-to-even (Python's rounding mode).
* The job registry `JOBS` (a Python dict guarded by `JOBS_LOCK`) is an
  association list; `JOBS[k] = v` is the usual replace-or-append update.
* The compute pipeline, image codec and clock are external collaborators:
  they enter as parameters (`decode`, `RunBehavior`, explicit `now`).
* Each `_set_job` call stores a new job record; `_run_edit` is modelled as
  the trace of successive records stored for the job.
-/

namespace ImageEdit

/-- An opaque decoded raster image (the core never inspects pixels). -/
abbrev Img := ℕ

/-- Raw bytes of an uploaded file, fed to the image codec. -/
abbrev UFile := List ℕ

/-- Job status; the code stores the strings
"queued" | "running" | "succeeded" | "failed". -/
inductive Status where
  | queued
  | running
  | succeeded
  | failed
deriving DecidableEq, Repr

/-- The `Job` pydantic model (fields and defaults as in the source). -/
structure Job where
  id : String
  status : Status
  progress : ℚ := 0
  prompt : String
  created_at : String
  error : Option String := none
  result_path : Option String := none
  steps : Int := 50
deriving DecidableEq, Repr

/-- Rounding a rational to the nearest integer, ties to even:
the semantics of Python's builtin `round` on an exact value. -/
def roundHalfEven (q : ℚ) : ℤ :=
  if Int.fract q < 1/2 then ⌊q⌋
  else if 1/2 < Int.fract q then ⌊q⌋ + 1
  else if ⌊q⌋ % 2 = 0 then ⌊q⌋ else ⌊q⌋ + 1

/-- Python's `round(x, 1)`: round to one decimal digit, ties to even. -/
def round1 (q : ℚ) : ℚ := (roundHalfEven (q * 10) : ℚ) / 10

/-- The percentage written by the `on_step_end` progress callback of
`_run_edit` for 0-based iteration index `step`:
`min(100.0, round((step + 1) / max(steps, 1) * 100.0, 1))`. -/
def on_step_end_progress (steps : Int) (step : ℕ) : ℚ :=
  min 100 (round1 (((step : ℚ) + 1) / ((max steps 1 : Int) : ℚ) * 100))

/-- `RESULTS_DIR` (modulo `os.path.abspath`, a transport concern). -/
def RESULTS_DIR : String := "./results"

/-- The file name chosen by `_save_pil`: `f"{job_id}.png"`. -/
def save_pil_filename (job_id : String) : String := job_id ++ ".png"

/-- The path returned by `_save_pil`:
`os.path.join(RESULTS_DIR, filename)`. -/
def save_pil_path (job_id : String) : String :=
  RESULTS_DIR ++ "/" ++ save_pil_filename job_id

/-- Observable behaviour of the external collaborators during one
`_run_edit` invocation: where (if anywhere) an exception is raised, how
many times the pipeline fires the step callback, and what it returns. -/
inductive RunBehavior where
  /-- `ensure_model_loaded()` raises with message `msg`
  (resource acquisition failure). -/
  | loadRaise (msg : String)
  /-- The pipeline call fires the step callback for indices
  `0 .. k-1`, then raises with message `msg`. -/
  | pipeRaise (k : ℕ) (msg : String)
  /-- The pipeline call fires the step callback for indices `0 .. k-1`
  and returns output images `outImages`; `saveFail = some msg` means
  `_save_pil` (or anything after the pipeline call) raises. -/
  | pipeOk (k : ℕ) (outImages : List Img) (saveFail : Option String)
deriving DecidableEq, Repr

/-- The records stored by the progress callback for indices `0 .. k-1`:
each `_set_job(job_id, progress=...)` call updates only `progress` on the
current record `j` (whose status is already "running"). -/
def stepTrace (steps : Int) (j : Job) (k : ℕ) : List Job :=
  (List.range k).map (fun i => { j with progress := on_step_end_progress steps i })

/-- Result of one `_run_edit` invocation: the trace of successive job
records stored for the job, and the `(image, path)` writes completed by
`_save_pil` against the artifact store. -/
structure RunResult where
  trace : List Job
  saves : List (Img × String)
deriving DecidableEq, Repr

/-- `_run_edit(job_id, images, prompt, negative_prompt, steps,
true_cfg_scale, seed)`, starting from the record `j0` that the admission
route placed in `JOBS` (the other arguments are forwarded to the external
pipeline and do not influence which records are stored, so the model
takes `steps`, the behaviour `beh` and `j0`).

Source shape: set running/progress-0; `ensure_model_loaded()`; invoke the
pipeline with the step callback; take `out.images[0]`; `_save_pil`; set
succeeded/result_path/progress-100; any exception in the `try` block is
caught and stored as status failed with `error=str(e)`. An empty output
image list makes `out.images[0]` raise `IndexError("list index out of
range")`, which the same handler catches. -/
def run_edit (steps : Int) (beh : RunBehavior) (j0 : Job) : RunResult :=
  let w1 : Job := { j0 with status := .running, progress := 0 }
  match beh with
  | .loadRaise msg =>
      ⟨[w1, { w1 with status := .failed, error := some msg }], []⟩
  | .pipeRaise k msg =>
      let ps := stepTrace steps w1 k
      let last := ps.getLastD w1
      ⟨w1 :: ps ++ [{ last with status := .failed, error := some msg }], []⟩
  | .pipeOk k outImages saveFail =>
      let ps := stepTrace steps w1 k
      let last := ps.getLastD w1
      match outImages with
      | [] =>
          ⟨w1 :: ps ++
            [{ last with status := .failed,
                         error := some "list index out of range" }], []⟩
      | img :: _ =>
          match saveFail with
          | some msg =>
              ⟨w1 :: ps ++
                [{ last with status := .failed, error := some msg }], []⟩
          | none =>
              ⟨w1 :: ps ++
                [{ last with status := .succeeded,
                             result_path := some (save_pil_path j0.id),
                             progress := 100 }],
               [(img, save_pil_path j0.id)]⟩

/-- The error message raised (and caught) during `run_edit` under
behaviour `beh`, if any; `none` means the invocation succeeds. -/
def raisedMsg : RunBehavior → Option String
  | .loadRaise msg => some msg
  | .pipeRaise _ msg => some msg
  | .pipeOk _ [] _ => some "list index out of range"
  | .pipeOk _ (_ :: _) (some msg) => some msg
  | .pipeOk _ (_ :: _) none => none

/-- The job registry: the Python dict `JOBS` (id ↦ record), modelled as
an association list with distinct keys kept in insertion order. -/
abbrev Registry := List (String × Job)

/-- `JOBS[job_id] = job` under `JOBS_LOCK`: Python dict assignment —
replace the record if the key exists, append otherwise. -/
def JOBS_store (jobs : Registry) (job_id : String) (job : Job) : Registry :=
  match jobs with
  | [] => [(job_id, job)]
  | (k, v) :: rest =>
      if k = job_id then (k, job) :: rest
      else (k, v) :: JOBS_store rest job_id job

/-- The response body of a successful `POST /edit`. -/
structure SubmitResponse where
  job_id : String
  status : String
deriving DecidableEq, Repr

/-- The work item handed to `EXECUTOR.submit(_run_edit, ...)`:
the arguments of the enqueued `_run_edit` call. -/
structure WorkItem where
  job_id : String
  images : List Img
  prompt : String
  negative_prompt : String
  steps : Int
  true_cfg_scale : ℚ
  seed : Option Int
deriving DecidableEq, Repr

/-- The admission route `POST /edit` (`submit_edit`).

`decode` is the image codec (`Image.open(io.BytesIO(data)).convert("RGB")`;
`none` = the bytes are not a decodable raster image). The route signature
makes `file` and `prompt` required and gives form defaults
`negative_prompt = " "`, `num_inference_steps = 50`,
`true_cfg_scale = 4.0`, `seed = None`; an omitted optional form field is
a `none` argument resolved to its default, and an omitted required field
is rejected before the body runs (FastAPI's `File(...)` / `Form(...)`).
`job_id` is the freshly minted `uuid4().hex` and `now` the creation
timestamp, both passed in explicitly.

Returns the registry after the call together with either the error detail
(an `HTTPException`) or the response and the enqueued work item. -/
def submit_edit (decode : UFile → Option Img)
    (file file2 file3 : Option UFile)
    (prompt : Option String) (negative_prompt : Option String)
    (num_inference_steps : Option Int) (true_cfg_scale : Option ℚ)
    (seed : Option Int)
    (jobs : Registry) (job_id : String) (now : String) :
    Registry × Except String (SubmitResponse × WorkItem) :=
  match file with
  | none => (jobs, .error "field required: file")
  | some f =>
    match prompt with
    | none => (jobs, .error "field required: prompt")
    | some p =>
      let np := negative_prompt.getD " "
      let steps := num_inference_steps.getD 50
      let cfg := true_cfg_scale.getD 4
      match decode f with
      | none => (jobs, .error "Invalid image")
      | some i1 =>
        let step2 : Except String (List Img) :=
          match file2 with
          | none => .ok [i1]
          | some f2 =>
            match decode f2 with
            | none => .error "Invalid second image"
            | some i2 => .ok [i1, i2]
        match step2 with
        | .error e => (jobs, .error e)
        | .ok imgs2 =>
          let step3 : Except String (List Img) :=
            match file3 with
            | none => .ok imgs2
            | some f3 =>
              match decode f3 with
              | none => .error "Invalid third image"
              | some i3 => .ok (imgs2 ++ [i3])
          match step3 with
          | .error e => (jobs, .error e)
          | .ok images =>
            let job : Job :=
              { id := job_id, status := .queued, prompt := p,
                created_at := now, steps := steps }
            let jobs' := JOBS_store jobs job_id job
            let work : WorkItem :=
              { job_id := job_id, images := images, prompt := p,
                negative_prompt := np, steps := steps,
                true_cfg_scale := cfg, seed := seed }
            (jobs', .ok (⟨job_id, "queued"⟩, work))

/-- The model-residency state: whether `PIPELINE` is loaded,
`LAST_REQUEST_TIME`, and the delay (in seconds) for which the pending
`UNLOAD_TIMER` is armed, if one is pending. All transitions below run
under `PIPELINE_LOCK`. -/
structure ResidencyState where
  pipelineLoaded : Bool
  lastRequestTime : ℚ
  unloadTimerDelay : Option ℚ
deriving DecidableEq, Repr

/-- `unload_model()`: release the pipeline if it is loaded; no-op
otherwise. -/
def unload_model (s : ResidencyState) : ResidencyState :=
  if s.pipelineLoaded then { s with pipelineLoaded := false } else s

/-- `schedule_unload_check()` with idle timeout configured as
`timeoutMinutes` (`MODEL_TIMEOUT_MINUTES`): cancel any pending timer and
arm a fresh one for the full `MODEL_TIMEOUT_MINUTES * 60` seconds. -/
def schedule_unload_check (timeoutMinutes : ℚ) (s : ResidencyState) :
    ResidencyState :=
  { s with unloadTimerDelay := some (timeoutMinutes * 60) }

/-- `check_and_unload_model()`, fired by the timer at wall-clock time
`now`: if `now - LAST_REQUEST_TIME >= MODEL_TIMEOUT_MINUTES * 60`, unload
the model; otherwise schedule the next check. -/
def check_and_unload_model (timeoutMinutes : ℚ) (now : ℚ)
    (s : ResidencyState) : ResidencyState :=
  if timeoutMinutes * 60 ≤ now - s.lastRequestTime then unload_model s
  else schedule_unload_check timeoutMinutes s

/-- A concrete freshly admitted job record, used to instantiate the
theorems below on closed inputs. -/
def sampleJob : Job :=
  { id := "id0", status := .queued, progress := 0, prompt := "p",
    created_at := "t", steps := 50 }

/-! ## Helper lemmas -/

theorem roundHalfEven_mono {a b : ℚ} (h : a ≤ b) :
    roundHalfEven a ≤ roundHalfEven b := by
  unfold roundHalfEven
  have hf : ⌊a⌋ ≤ ⌊b⌋ := Int.floor_le_floor h
  rcases lt_or_eq_of_le hf with hlt | heq
  · split_ifs <;> omega
  · have hfr : Int.fract a ≤ Int.fract b := by
      rw [Int.fract, Int.fract]
      have : ((⌊a⌋ : ℚ)) = ((⌊b⌋ : ℚ)) := by exact_mod_cast heq
      linarith
    split_ifs <;> first | omega | linarith

theorem round1_mono {a b : ℚ} (h : a ≤ b) : round1 a ≤ round1 b := by
  unfold round1
  have h10 : a * 10 ≤ b * 10 := by linarith
  have := roundHalfEven_mono h10
  have hc : ((roundHalfEven (a * 10) : ℚ)) ≤ ((roundHalfEven (b * 10) : ℚ)) := by
    exact_mod_cast this
  linarith

theorem on_step_end_progress_mono (steps : Int) {i j : ℕ} (hij : i ≤ j) :
    on_step_end_progress steps i ≤ on_step_end_progress steps j := by
  unfold on_step_end_progress
  have hden : (0 : ℚ) < ((max steps 1 : Int) : ℚ) := by
    have h1 : (0 : Int) < max steps 1 := lt_of_lt_of_le zero_lt_one (le_max_right _ _)
    exact_mod_cast h1
  refine min_le_min le_rfl (round1_mono ?_)
  have hij' : ((i : ℚ) + 1) ≤ ((j : ℚ) + 1) := by
    have : (i : ℚ) ≤ (j : ℚ) := by exact_mod_cast hij
    linarith
  have hdiv : ((i : ℚ) + 1) / ((max steps 1 : Int) : ℚ)
      ≤ ((j : ℚ) + 1) / ((max steps 1 : Int) : ℚ) :=
    div_le_div_of_nonneg_right hij' hden.le |>.trans_eq rfl
  linarith

theorem stepTrace_map_status (steps : Int) (j : Job) (k : ℕ) :
    (stepTrace steps j k).map Job.status = List.replicate k j.status := by
  induction k with
  | zero => rfl
  | succ n ih =>
      simp only [stepTrace, List.range_succ, List.map_append, List.map_map] at *
      rw [ih]
      simp [List.replicate_succ']

theorem stepTrace_getLastD_status (steps : Int) (j : Job) (k : ℕ) :
    ((stepTrace steps j k).getLastD j).status = j.status := by
  cases k with
  | zero => rfl
  | succ n => simp [stepTrace, List.range_succ]

theorem stepTrace_getLastD_result_path (steps : Int) (j : Job) (k : ℕ) :
    ((stepTrace steps j k).getLastD j).result_path = j.result_path := by
  cases k with
  | zero => rfl
  | succ n => simp [stepTrace, List.range_succ]

/-! ## Claims -/

/-- **C2.** For every requested step count `steps ≥ 1` and every 0-based
iteration index delivered by the progress callback, the worker writes
`progress = min(100, round((index+1)/steps*100, 1))` to the job record
(the values written by `stepTrace` are exactly `on_step_end_progress`,
and with `steps ≥ 1` the code's `max(steps, 1)` denominator equals
`steps`, so the written value is the claimed formula); and within a
single invocation the written progress values are monotonically
non-decreasing in the index. -/
theorem C2_progress_formula_monotone (steps : Int) (hsteps : 1 ≤ steps)
    (i j : ℕ) (hij : i ≤ j) (jb : Job) (k : ℕ) :
    (stepTrace steps jb k).map Job.progress
      = (List.range k).map (on_step_end_progress steps) ∧
    on_step_end_progress steps i
      = min 100 (round1 (((i : ℚ) + 1) / (steps : ℚ) * 100)) ∧
    on_step_end_progress steps i ≤ on_step_end_progress steps j := by
  refine ⟨?_, ?_, on_step_end_progress_mono steps hij⟩
  · simp only [stepTrace, List.map_map]
    rfl
  · unfold on_step_end_progress
    rw [max_eq_left hsteps]

/-- Witness for C2 at `steps = 50`, indices `2 ≤ 5`, a concrete record
and `k = 3` callback firings. -/
theorem C2_progress_formula_monotone_witness :
    (stepTrace 50 ⟨"id0", .running, 0, "p", "t", none, none, 50⟩ 3).map Job.progress
      = (List.range 3).map (on_step_end_progress 50) ∧
    on_step_end_progress 50 2
      = min 100 (round1 (((2 : ℚ) + 1) / ((50 : Int) : ℚ) * 100)) ∧
    on_step_end_progress 50 2 ≤ on_step_end_progress 50 5 :=
  C2_progress_formula_monotone 50 (by norm_num) 2 5 (by norm_num)
    ⟨"id0", .running, 0, "p", "t", none, none, 50⟩ 3

/-- **C1.** For every job, the sequence of status values ever stored in
the job record is a prefix of Queued, Running, then exactly one terminal
status: starting from the Queued record created at admission, under any
behaviour of the collaborators the stored statuses are exactly
`queued :: running^(n+1) ++ [t]` with `t ∈ {succeeded, failed}` — the
worker first sets running (with progress 0), never moves the status
backwards, never skips from Queued to Succeeded, and stores exactly one
terminal status. -/
theorem C1_status_sequence (steps : Int) (beh : RunBehavior) (j0 : Job)
    (h0 : j0.status = .queued) :
    ∃ (n : ℕ) (t : Status), (t = .succeeded ∨ t = .failed) ∧
      (j0 :: (run_edit steps beh j0).trace).map Job.status
        = .queued :: (List.replicate (n + 1) .running ++ [t]) := by
  cases beh with
  | loadRaise msg =>
      exact ⟨0, .failed, Or.inr rfl, by simp [run_edit, h0]⟩
  | pipeRaise k msg =>
      refine ⟨k, .failed, Or.inr rfl, ?_⟩
      simp [run_edit, h0, stepTrace_map_status, List.replicate_succ]
  | pipeOk k outImages saveFail =>
      match outImages, saveFail with
      | [], _ =>
          refine ⟨k, .failed, Or.inr rfl, ?_⟩
          simp [run_edit, h0, stepTrace_map_status, List.replicate_succ]
      | img :: rest, some msg =>
          refine ⟨k, .failed, Or.inr rfl, ?_⟩
          simp [run_edit, h0, stepTrace_map_status, List.replicate_succ]
      | img :: rest, none =>
          refine ⟨k, .succeeded, Or.inl rfl, ?_⟩
          simp [run_edit, h0, stepTrace_map_status, List.replicate_succ]

/-- Witness for C1: a concrete Queued record run under a successful
two-step behaviour. -/
theorem C1_status_sequence_witness :
    ∃ (n : ℕ) (t : Status), (t = .succeeded ∨ t = .failed) ∧
      ((⟨"id0", .queued, 0, "p", "t", none, none, 50⟩ : Job)
          :: (run_edit 50 (.pipeOk 2 [7] none)
                ⟨"id0", .queued, 0, "p", "t", none, none, 50⟩).trace).map Job.status
        = .queued :: (List.replicate (n + 1) .running ++ [t]) :=
  C1_status_sequence 50 (.pipeOk 2 [7] none)
    ⟨"id0", .queued, 0, "p", "t", none, none, 50⟩ rfl

/-- **C3.** For every job whose execution raises any exception after the
job was marked Running, the worker stores, as its final write, the record
obtained from the last stored record by changing only `status` (to
Failed) and `error` (to the exception's message): `progress` keeps the
last reported value, `result_path` stays `none` (given it was unset at
entry), and nothing is written to the artifact store. -/
theorem C3_failure_frame (steps : Int) (beh : RunBehavior) (j0 : Job)
    (hres : j0.result_path = none) (msg : String)
    (hmsg : raisedMsg beh = some msg) :
    ∃ pre : List Job, pre ≠ [] ∧
      (run_edit steps beh j0).trace
        = pre ++ [{ pre.getLastD j0 with status := .failed, error := some msg }] ∧
      ({ pre.getLastD j0 with status := .failed, error := some msg } : Job).progress
        = (pre.getLastD j0).progress ∧
      (pre.getLastD j0).result_path = none ∧
      (run_edit steps beh j0).saves = [] := by
  cases beh with
  | loadRaise m =>
      obtain rfl : m = msg := by simpa [raisedMsg] using hmsg
      refine ⟨[{ j0 with status := .running, progress := 0 }], by simp, ?_, rfl, ?_, rfl⟩
      · simp [run_edit]
      · simpa using hres
  | pipeRaise k m =>
      obtain rfl : m = msg := by simpa [raisedMsg] using hmsg
      refine ⟨{ j0 with status := .running, progress := 0 }
          :: stepTrace steps { j0 with status := .running, progress := 0 } k,
        by simp, ?_, rfl, ?_, rfl⟩
      · rw [List.getLastD_cons]
        simp [run_edit]
      · rw [List.getLastD_cons, stepTrace_getLastD_result_path]
        simpa using hres
  | pipeOk k outImages saveFail =>
      match outImages, saveFail with
      | [], sf =>
          obtain rfl : "list index out of range" = msg := by
            simpa [raisedMsg] using hmsg
          refine ⟨{ j0 with status := .running, progress := 0 }
              :: stepTrace steps { j0 with status := .running, progress := 0 } k,
            by simp, ?_, rfl, ?_, rfl⟩
          · rw [List.getLastD_cons]
            simp [run_edit]
          · rw [List.getLastD_cons, stepTrace_getLastD_result_path]
            simpa using hres
      | img :: rest, some m =>
          obtain rfl : m = msg := by simpa [raisedMsg] using hmsg
          refine ⟨{ j0 with status := .running, progress := 0 }
              :: stepTrace steps { j0 with status := .running, progress := 0 } k,
            by simp, ?_, rfl, ?_, rfl⟩
          · rw [List.getLastD_cons]
            simp [run_edit]
          · rw [List.getLastD_cons, stepTrace_getLastD_result_path]
            simpa using hres
      | img :: rest, none =>
          simp [raisedMsg] at hmsg

/-- Witness for C3: a concrete record whose pipeline call raises after 3
callback firings. -/
theorem C3_failure_frame_witness :
    ∃ pre : List Job, pre ≠ [] ∧
      (run_edit 50 (.pipeRaise 3 "CUDA out of memory") sampleJob).trace
        = pre ++ [{ pre.getLastD sampleJob with
                    status := .failed, error := some "CUDA out of memory" }] ∧
      ({ pre.getLastD sampleJob with
         status := .failed, error := some "CUDA out of memory" } : Job).progress
        = (pre.getLastD sampleJob).progress ∧
      (pre.getLastD sampleJob).result_path = none ∧
      (run_edit 50 (.pipeRaise 3 "CUDA out of memory") sampleJob).saves = [] :=
  C3_failure_frame 50 (.pipeRaise 3 "CUDA out of memory")
    sampleJob rfl "CUDA out of memory" rfl

/-- **C7.** For every job whose compute invocation completes
successfully (nonempty output list, no save failure), the worker persists
the first produced output image under the file name `job id ++ ".png"`,
records that artifact reference on the final stored record, sets status
Succeeded, and sets progress to exactly 100. -/
theorem C7_success_path (steps : Int) (k : ℕ) (img : Img) (rest : List Img)
    (j0 : Job) :
    save_pil_filename j0.id = j0.id ++ ".png" ∧
    (run_edit steps (.pipeOk k (img :: rest) none) j0).saves
      = [(img, save_pil_path j0.id)] ∧
    ∃ pre : List Job, pre ≠ [] ∧
      (run_edit steps (.pipeOk k (img :: rest) none) j0).trace
        = pre ++ [{ pre.getLastD j0 with status := .succeeded, result_path := some (save_pil_path j0.id), progress := 100 }] := by
  refine ⟨rfl, rfl, { j0 with status := .running, progress := 0 }
      :: stepTrace steps { j0 with status := .running, progress := 0 } k,
    by simp, ?_⟩
  rw [List.getLastD_cons]
  simp [run_edit]

/-- **C4 (counterexample).** The claim says that when the idle check
finds the resource still within its idle window it re-arms the timer for
the *remaining* window `idleTimeout - elapsed`. With a 30-minute timeout,
`lastRequestTime = 0` and the check firing at `now = 100` (elapsed 100 s,
remaining 1700 s), the code arms the timer for the full 1800 s, not
1700 s. -/
theorem C4_remaining_window_counterexample :
    (check_and_unload_model 30 100
        { pipelineLoaded := true, lastRequestTime := 0,
          unloadTimerDelay := some 1800 }).unloadTimerDelay
      ≠ some (30 * 60 - (100 - 0)) := by
  simp [check_and_unload_model, schedule_unload_check, unload_model]
  norm_num

/-- **C4 (amended).** When the idle-check timer fires: if the time
elapsed since `lastRequestTime` is at least `MODEL_TIMEOUT_MINUTES * 60`,
the model is unloaded (and no new timer is armed by this path);
otherwise the residency flag is unchanged and the timer is re-armed for
the full timeout again — not for the remaining window. -/
theorem C4_idle_check (tm now : ℚ) (s : ResidencyState) :
    (tm * 60 ≤ now - s.lastRequestTime →
        (check_and_unload_model tm now s).pipelineLoaded = false ∧
        (check_and_unload_model tm now s).unloadTimerDelay = s.unloadTimerDelay) ∧
    (now - s.lastRequestTime < tm * 60 →
        (check_and_unload_model tm now s).pipelineLoaded = s.pipelineLoaded ∧
        (check_and_unload_model tm now s).unloadTimerDelay = some (tm * 60)) := by
  constructor
  · intro h
    simp only [check_and_unload_model, if_pos h, unload_model]
    by_cases hl : s.pipelineLoaded <;> simp [hl]
  · intro h
    rw [check_and_unload_model, if_neg (by linarith)]
    exact ⟨rfl, rfl⟩

/-- Witness for C4 (amended), exercising the re-arm branch at elapsed
100 s against an 1800 s timeout. -/
theorem C4_idle_check_witness :
    (check_and_unload_model 30 100
        { pipelineLoaded := true, lastRequestTime := 0,
          unloadTimerDelay := some 1800 }).pipelineLoaded
      = ({ pipelineLoaded := true, lastRequestTime := 0,
           unloadTimerDelay := some 1800 } : ResidencyState).pipelineLoaded ∧
    (check_and_unload_model 30 100
        { pipelineLoaded := true, lastRequestTime := 0,
          unloadTimerDelay := some 1800 }).unloadTimerDelay
      = some (30 * 60) :=
  (C4_idle_check 30 100
      { pipelineLoaded := true, lastRequestTime := 0,
        unloadTimerDelay := some 1800 }).2 (by norm_num)

/-- **C5 (counterexample).** Storing a record under an id already
present in `JOBS` does not fail and does not leave the existing record
unchanged: with `"a" ↦ jobA` present, storing `jobB` under `"a"` yields
a registry whose entry at `"a"` is `jobB`, not `jobA`. -/
theorem C5_duplicate_id_counterexample :
    ({ id := "a", status := .queued, progress := 0, prompt := "p1", created_at := "t1", error := none, result_path := none, steps := 50 } : Job)
      ≠ ({ id := "a", status := .queued, progress := 0, prompt := "p2", created_at := "t2", error := none, result_path := none, steps := 50 } : Job) ∧
    (JOBS_store
        [("a", { id := "a", status := .queued, progress := 0, prompt := "p1", created_at := "t1", error := none, result_path := none, steps := 50 })]
        "a"
        { id := "a", status := .queued, progress := 0, prompt := "p2", created_at := "t2", error := none, result_path := none, steps := 50 }).lookup "a"
      = some { id := "a", status := .queued, progress := 0, prompt := "p2", created_at := "t2", error := none, result_path := none, steps := 50 } := by
  constructor
  · intro h
    have := congrArg Job.prompt h
    simp at this
  · rfl

/-- **C5 (amended).** Creation under an id that already exists silently
overwrites: for every registry, id and record, after `JOBS[job_id] = job`
the registry maps `job_id` to the new record; no `DuplicateId` failure
path exists (the store operation is total). -/
theorem C5_store_overwrites (jobs : Registry) (job_id : String) (j : Job) :
    (JOBS_store jobs job_id j).lookup job_id = some j := by
  induction jobs with
  | nil => simp [JOBS_store]
  | cons hd tl ih =>
      obtain ⟨k, v⟩ := hd
      by_cases hk : k = job_id
      · subst hk
        simp [JOBS_store]
      · have hbeq : (job_id == k) = false := beq_eq_false_iff_ne.mpr (Ne.symm hk)
        simp [JOBS_store, hk, List.lookup, ih, hbeq]

/-- **C6.** For every submission whose required first image, or any
optional image that is present, cannot be decoded as a valid raster
image, admission fails synchronously with an invalid-input error, the
registry is returned unchanged, no job record is created, and nothing is
enqueued (the result carries no work item). -/
theorem C6_invalid_image_rejected (decode : UFile → Option Img)
    (f : UFile) (file2 file3 : Option UFile) (p : String)
    (np : Option String) (steps : Option Int) (cfg : Option ℚ)
    (seed : Option Int) (jobs : Registry) (job_id now : String)
    (hbad : decode f = none
      ∨ (∃ f2, file2 = some f2 ∧ decode f2 = none)
      ∨ (∃ f3, file3 = some f3 ∧ decode f3 = none)) :
    (submit_edit decode (some f) file2 file3 (some p) np steps cfg seed
        jobs job_id now).1 = jobs ∧
    ((submit_edit decode (some f) file2 file3 (some p) np steps cfg seed
        jobs job_id now).2 = .error "Invalid image"
      ∨ (submit_edit decode (some f) file2 file3 (some p) np steps cfg seed
          jobs job_id now).2 = .error "Invalid second image"
      ∨ (submit_edit decode (some f) file2 file3 (some p) np steps cfg seed
          jobs job_id now).2 = .error "Invalid third image") := by
  rcases hbad with h1 | ⟨f2, rfl, h2⟩ | ⟨f3, rfl, h3⟩
  · simp [submit_edit, h1]
  · cases hdf : decode f with
    | none => simp [submit_edit, hdf]
    | some i1 => simp [submit_edit, hdf, h2]
  · cases hdf : decode f with
    | none => simp [submit_edit, hdf]
    | some i1 =>
      cases file2 with
      | none => simp [submit_edit, hdf, h3]
      | some f2 =>
        cases hdf2 : decode f2 with
        | none => simp [submit_edit, hdf, hdf2]
        | some i2 => simp [submit_edit, hdf, hdf2, h3]

/-- Witness for C6: a codec that decodes nothing rejects the required
image and leaves an empty registry empty. -/
theorem C6_invalid_image_rejected_witness :
    (submit_edit (fun _ => none) (some [0]) none none (some "edit") none
        none none none [] "id0" "t0").1 = [] ∧
    ((submit_edit (fun _ => none) (some [0]) none none (some "edit") none
        none none none [] "id0" "t0").2 = .error "Invalid image"
      ∨ (submit_edit (fun _ => none) (some [0]) none none (some "edit") none
          none none none [] "id0" "t0").2 = .error "Invalid second image"
      ∨ (submit_edit (fun _ => none) (some [0]) none none (some "edit") none
          none none none [] "id0" "t0").2 = .error "Invalid third image") :=
  C6_invalid_image_rejected (fun _ => none) [0] none none "edit" none
    none none none [] "id0" "t0" (Or.inl rfl)

/-- **C8 (counterexample).** The claim says a submission whose step
count is not a positive integer fails with an invalid-input error and
creates no job. A concrete submission with `num_inference_steps = 0` and
a decodable image is accepted: the job record is created (with
`steps = 0`) and the work item is enqueued. -/
theorem C8_no_numeric_validation_counterexample :
    (submit_edit (fun _ => some 0) (some [0]) none none (some "edit") none
        (some 0) none none [] "id0" "t0").1
      = [("id0", { id := "id0", status := .queued, progress := 0, prompt := "edit", created_at := "t0", error := none, result_path := none, steps := 0 })] ∧
    (submit_edit (fun _ => some 0) (some [0]) none none (some "edit") none
        (some 0) none none [] "id0" "t0").2
      = .ok (⟨"id0", "queued"⟩,
             { job_id := "id0", images := [0], prompt := "edit", negative_prompt := " ", steps := 0, true_cfg_scale := 4, seed := none }) :=
  ⟨rfl, rfl⟩

/-- **C8 (amended).** Admission performs no positivity validation of its
numeric parameters: any submission with a decodable required image is
accepted whatever `num_inference_steps` and `true_cfg_scale` are
(including non-positive values). When parameters are omitted, the step
count defaults to 50, the guidance scale to 4.0 and the negative prompt
to a single whitespace character, on both the created job record and the
enqueued work item. -/
theorem C8_defaults_no_validation (decode : UFile → Option Img)
    (f : UFile) (i1 : Img) (hdec : decode f = some i1) (p : String)
    (np : Option String) (steps : Option Int) (cfg : Option ℚ)
    (seed : Option Int) (jobs : Registry) (job_id now : String) :
    ∃ work : WorkItem,
      (submit_edit decode (some f) none none (some p) np steps cfg seed
          jobs job_id now).2 = .ok (⟨job_id, "queued"⟩, work) ∧
      (submit_edit decode (some f) none none (some p) np steps cfg seed
          jobs job_id now).1
        = JOBS_store jobs job_id
            { id := job_id, status := .queued, progress := 0, prompt := p, created_at := now, error := none, result_path := none, steps := steps.getD 50 } ∧
      work.steps = steps.getD 50 ∧
      work.negative_prompt = np.getD " " ∧
      work.true_cfg_scale = cfg.getD 4 := by
  refine ⟨{ job_id := job_id, images := [i1], prompt := p, negative_prompt := np.getD " ", steps := steps.getD 50, true_cfg_scale := cfg.getD 4, seed := seed }, ?_, ?_, rfl, rfl, rfl⟩
  · simp [submit_edit, hdec]
  · simp [submit_edit, hdec]

/-- Witness for C8 (amended): all optional numeric fields omitted. -/
theorem C8_defaults_no_validation_witness :
    ∃ work : WorkItem,
      (submit_edit (fun _ => some 3) (some [0]) none none (some "edit")
          none none none none [] "id0" "t0").2 = .ok (⟨"id0", "queued"⟩, work) ∧
      (submit_edit (fun _ => some 3) (some [0]) none none (some "edit")
          none none none none [] "id0" "t0").1
        = JOBS_store [] "id0"
            { id := "id0", status := .queued, progress := 0, prompt := "edit", created_at := "t0", error := none, result_path := none, steps := (none : Option Int).getD 50 } ∧
      work.steps = (none : Option Int).getD 50 ∧
      work.negative_prompt = (none : Option String).getD " " ∧
      work.true_cfg_scale = (none : Option ℚ).getD 4 :=
  C8_defaults_no_validation (fun _ => some 3) [0] 3 rfl "edit"
    none none none none [] "id0" "t0"

/-- **C9.** For every submission with 1, 2 or 3 decodable images
(`oi2`/`oi3` are the decodes of the optional files, when present),
admission succeeds and the enqueued work carries exactly the submitted
images, in submission order, so its image count equals the number of
images submitted; and a submission with no image at all fails admission
(the route's first file is a required field). -/
theorem C9_image_count (decode : UFile → Option Img)
    (f1 : UFile) (i1 : Img) (h1 : decode f1 = some i1)
    (o2 o3 : Option UFile) (oi2 oi3 : Option Img)
    (h2 : o2.map decode = oi2.map some) (h3 : o3.map decode = oi3.map some)
    (p : String) (np : Option String) (steps : Option Int) (cfg : Option ℚ)
    (seed : Option Int) (jobs : Registry) (job_id now : String) :
    (∃ resp work,
        (submit_edit decode (some f1) o2 o3 (some p) np steps cfg seed
            jobs job_id now).2 = .ok (resp, work) ∧
        work.images = i1 :: (oi2.toList ++ oi3.toList) ∧
        work.images.length = 1 + o2.toList.length + o3.toList.length) ∧
    submit_edit decode none o2 o3 (some p) np steps cfg seed jobs job_id now
      = (jobs, .error "field required: file") := by
  refine ⟨?_, rfl⟩
  rcases o2 with _ | f2
  · have hoi2 : oi2 = none := by
      cases oi2 with | none => rfl | some x => simp at h2
    subst hoi2
    rcases o3 with _ | f3
    · have hoi3 : oi3 = none := by
        cases oi3 with | none => rfl | some x => simp at h3
      subst hoi3
      refine ⟨⟨job_id, "queued"⟩, { job_id := job_id, images := [i1], prompt := p, negative_prompt := np.getD " ", steps := steps.getD 50, true_cfg_scale := cfg.getD 4, seed := seed }, ?_, rfl, rfl⟩
      simp [submit_edit, h1]
    · cases oi3 with
      | none => simp at h3
      | some i3 =>
        simp only [Option.map_some'] at h3
        have h3' : decode f3 = some i3 := Option.some.inj h3
        refine ⟨⟨job_id, "queued"⟩, { job_id := job_id, images := [i1, i3], prompt := p, negative_prompt := np.getD " ", steps := steps.getD 50, true_cfg_scale := cfg.getD 4, seed := seed }, ?_, rfl, rfl⟩
        simp [submit_edit, h1, h3']
  · cases oi2 with
    | none => simp at h2
    | some i2 =>
      simp only [Option.map_some'] at h2
      have h2' : decode f2 = some i2 := Option.some.inj h2
      rcases o3 with _ | f3
      · have hoi3 : oi3 = none := by
          cases oi3 with | none => rfl | some x => simp at h3
        subst hoi3
        refine ⟨⟨job_id, "queued"⟩, { job_id := job_id, images := [i1, i2], prompt := p, negative_prompt := np.getD " ", steps := steps.getD 50, true_cfg_scale := cfg.getD 4, seed := seed }, ?_, rfl, rfl⟩
        simp [submit_edit, h1, h2']
      · cases oi3 with
        | none => simp at h3
        | some i3 =>
          simp only [Option.map_some'] at h3
          have h3' : decode f3 = some i3 := Option.some.inj h3
          refine ⟨⟨job_id, "queued"⟩, { job_id := job_id, images := [i1, i2, i3], prompt := p, negative_prompt := np.getD " ", steps := steps.getD 50, true_cfg_scale := cfg.getD 4, seed := seed }, ?_, rfl, rfl⟩
          simp [submit_edit, h1, h2', h3']

/-- Witness for C9: two images submitted (decoder reads the first byte),
and the no-image rejection, on closed inputs. -/
theorem C9_image_count_witness :
    (∃ resp work,
        (submit_edit (fun b => some (b.headD 0)) (some [1]) (some [2]) none
            (some "edit") none none none none [] "id0" "t0").2
          = .ok (resp, work) ∧
        work.images = 1 :: ((some 2 : Option Img).toList ++ (none : Option Img).toList) ∧
        work.images.length
          = 1 + (some [2] : Option UFile).toList.length + (none : Option UFile).toList.length) ∧
    submit_edit (fun b => some (b.headD 0)) none (some [2]) none
        (some "edit") none none none none [] "id0" "t0"
      = ([], .error "field required: file") :=
  C9_image_count (fun b => some (b.headD 0)) [1] 1 rfl (some [2]) none
    (some 2) none rfl rfl "edit" none none none none [] "id0" "t0"

/-- **C10.** The optional image slots are independent: a submission that
provides the third file while omitting the second is accepted, and the
enqueued work is processed with exactly two images — the required first
image followed by the third file's image in the second position. -/
theorem C10_third_without_second (decode : UFile → Option Img)
    (f1 f3 : UFile) (i1 i3 : Img)
    (h1 : decode f1 = some i1) (h3 : decode f3 = some i3)
    (p : String) (np : Option String) (steps : Option Int) (cfg : Option ℚ)
    (seed : Option Int) (jobs : Registry) (job_id now : String) :
    ∃ resp work,
      (submit_edit decode (some f1) none (some f3) (some p) np steps cfg seed
          jobs job_id now).2 = .ok (resp, work) ∧
      work.images = [i1, i3] ∧ work.images.length = 2 := by
  refine ⟨⟨job_id, "queued"⟩, { job_id := job_id, images := [i1, i3], prompt := p, negative_prompt := np.getD " ", steps := steps.getD 50, true_cfg_scale := cfg.getD 4, seed := seed }, ?_, rfl, rfl⟩
  simp [submit_edit, h1, h3]

/-- Witness for C10 on closed inputs: first file decodes to image 1,
third file to image 3, second slot omitted. -/
theorem C10_third_without_second_witness :
    ∃ resp work,
      (submit_edit (fun b => some (b.headD 0)) (some [1]) none (some [3])
          (some "edit") none none none none [] "id0" "t0").2
        = .ok (resp, work) ∧
      work.images = [1, 3] ∧ work.images.length = 2 :=
  C10_third_without_second (fun b => some (b.headD 0)) [1] [3] 1 3 rfl rfl
    "edit" none none none none [] "id0" "t0"

end ImageEdit
